import Mathlib

/-!
Verification of the rhino_gh_mcp bridge against its specification.

The development shallowly embeds the Python sources:
  * `Rhino/rhino_bridge_server.py` — the HTTP dispatch bridge and the truss
    generator (`RhinoBridgeHandler.create_truss_geometry`,
    `RhinoBridgeHandler.do_POST`, `RhinoBridgeHandler.handle_generate_truss`);
  * `MCP/bridge_client.py` — the transport client (`call_bridge_api`);
  * `Tools/tool_registry.py` — the decorator registries and `discover_tools`;
  * `Tools/gh_tools.py` — the batch slider handler
    (`handle_set_multiple_sliders`).

Modelling conventions: Python floats are modelled as exact rationals (ℚ);
host-side effects (Rhino line creation, the Grasshopper document, the network)
are modelled as explicit inputs; fallible steps return `Option` or are guarded
by the same conditions the source checks.
-/

/-- A 3D point with exact rational coordinates (Python floats modelled as ℚ). -/
structure Point3 where
  x : ℚ
  y : ℚ
  z : ℚ
deriving DecidableEq, Repr

/-- One generated truss member, as appended to `truss_members` in
`create_truss_geometry`: the `"type"` tag plus the `"start"`/`"end"` points.
The Rhino-assigned `"id"` (a host GUID string) is outside the pure model and
is dropped.  Per claim C1's assumption, every `rs.AddLine` call is modelled as
succeeding, so the `if line_id:` guards in the source are always taken. -/
structure Member where
  type : String
  start : Point3
  endP : Point3
deriving DecidableEq, Repr

/-- Python `range(n)` where `n` may be negative or zero (empty in that case);
`n` is the `int`-typed bound appearing in the source. -/
def rangeList (n : ℤ) : List ℕ := List.range n.toNat

/-- Python `str.lower()`, restricted to ASCII, which covers every topology
name compared in the source.  (`String.toLower` of the library does not
kernel-reduce, hence this char-level definition.) -/
def pyLower (s : String) : String := String.mk (s.data.map Char.toLower)

/-- `division_points_top[i]` of `create_truss_geometry`:
`start_point + t * upper_vector` with `t = i / divisions`, componentwise. -/
def topPoint (sp ep : Point3) (d : ℤ) (i : ℕ) : Point3 :=
  { x := sp.x + ((i : ℚ) / (d : ℚ)) * (ep.x - sp.x)
  , y := sp.y + ((i : ℚ) / (d : ℚ)) * (ep.y - sp.y)
  , z := sp.z + ((i : ℚ) / (d : ℚ)) * (ep.z - sp.z) }

/-- `division_points_bottom[i]`: the top point translated by the fixed
`depth_vector = [0, 0, -depth]`, componentwise as in the source. -/
def bottomPoint (sp ep : Point3) (depth : ℚ) (d : ℤ) (i : ℕ) : Point3 :=
  { x := (topPoint sp ep d i).x + 0
  , y := (topPoint sp ep d i).y + 0
  , z := (topPoint sp ep d i).z + (-depth) }

def topChordMember (sp ep : Point3) (d : ℤ) (i : ℕ) : Member :=
  { type := "top_chord", start := topPoint sp ep d i, endP := topPoint sp ep d (i + 1) }

/-- The `for i in range(divisions)` loop creating top chord segments. -/
def topChordMembers (sp ep : Point3) (d : ℤ) : List Member :=
  (rangeList d).map (topChordMember sp ep d)

def bottomChordMember (sp ep : Point3) (depth : ℚ) (d : ℤ) (i : ℕ) : Member :=
  { type := "bottom_chord", start := bottomPoint sp ep depth d i
  , endP := bottomPoint sp ep depth d (i + 1) }

/-- The `for i in range(divisions)` loop creating bottom chord segments. -/
def bottomChordMembers (sp ep : Point3) (depth : ℚ) (d : ℤ) : List Member :=
  (rangeList d).map (bottomChordMember sp ep depth d)

def verticalMember (sp ep : Point3) (depth : ℚ) (d : ℤ) (i : ℕ) : Member :=
  { type := "vertical", start := topPoint sp ep d i, endP := bottomPoint sp ep depth d i }

/-- The `for i in range(divisions + 1)` vertical-member loop shared by the
Pratt, Vierendeel, Howe, Brown and default branches. -/
def verticalMembers (sp ep : Point3) (depth : ℚ) (d : ℤ) : List Member :=
  (rangeList (d + 1)).map (verticalMember sp ep depth d)

/-- One Pratt diagonal: bottom-to-top in even bays, top-to-bottom in odd
bays, matching the record appended in the `"pratt"` branch. -/
def prattDiagonal (sp ep : Point3) (depth : ℚ) (d : ℤ) (i : ℕ) : Member :=
  { type := "diagonal"
  , start := if i % 2 = 0 then bottomPoint sp ep depth d i else topPoint sp ep d i
  , endP := if i % 2 = 0 then topPoint sp ep d (i + 1) else bottomPoint sp ep depth d (i + 1) }

def prattDiagonals (sp ep : Point3) (depth : ℚ) (d : ℤ) : List Member :=
  (rangeList d).map (prattDiagonal sp ep depth d)

/-- One Warren diagonal (same alternation as Pratt in the source). -/
def warrenDiagonal (sp ep : Point3) (depth : ℚ) (d : ℤ) (i : ℕ) : Member :=
  { type := "diagonal"
  , start := if i % 2 = 0 then bottomPoint sp ep depth d i else topPoint sp ep d i
  , endP := if i % 2 = 0 then topPoint sp ep d (i + 1) else bottomPoint sp ep depth d (i + 1) }

def warrenDiagonals (sp ep : Point3) (depth : ℚ) (d : ℤ) : List Member :=
  (rangeList d).map (warrenDiagonal sp ep depth d)

/-- One Howe diagonal: the mirrored alternation (top-to-bottom in even bays). -/
def howeDiagonal (sp ep : Point3) (depth : ℚ) (d : ℤ) (i : ℕ) : Member :=
  { type := "diagonal"
  , start := if i % 2 = 0 then topPoint sp ep d i else bottomPoint sp ep depth d i
  , endP := if i % 2 = 0 then bottomPoint sp ep depth d (i + 1) else topPoint sp ep d (i + 1) }

def howeDiagonals (sp ep : Point3) (depth : ℚ) (d : ℤ) : List Member :=
  (rangeList d).map (howeDiagonal sp ep depth d)

/-- The two diagonals the `"brown"` branch creates in bay `i`
(`line_id1` then `line_id2`, appended in that order). -/
def brownBayDiagonals (sp ep : Point3) (depth : ℚ) (d : ℤ) (i : ℕ) : List Member :=
  [ { type := "diagonal", start := bottomPoint sp ep depth d i, endP := topPoint sp ep d (i + 1) }
  , { type := "diagonal", start := topPoint sp ep d i, endP := bottomPoint sp ep depth d (i + 1) } ]

def brownDiagonals (sp ep : Point3) (depth : ℚ) (d : ℤ) : List Member :=
  (rangeList d).flatMap (brownBayDiagonals sp ep depth d)

/-- One Onedir diagonal: single fixed direction bottom-to-top. -/
def onedirDiagonal (sp ep : Point3) (depth : ℚ) (d : ℤ) (i : ℕ) : Member :=
  { type := "diagonal", start := bottomPoint sp ep depth d i, endP := topPoint sp ep d (i + 1) }

def onedirDiagonals (sp ep : Point3) (depth : ℚ) (d : ℤ) : List Member :=
  (rangeList d).map (onedirDiagonal sp ep depth d)

/-- One diagonal of the fallback (unknown topology) branch; the source code
there is verbatim the Pratt pattern. -/
def defaultDiagonal (sp ep : Point3) (depth : ℚ) (d : ℤ) (i : ℕ) : Member :=
  { type := "diagonal"
  , start := if i % 2 = 0 then bottomPoint sp ep depth d i else topPoint sp ep d i
  , endP := if i % 2 = 0 then topPoint sp ep d (i + 1) else bottomPoint sp ep depth d (i + 1) }

def defaultDiagonals (sp ep : Point3) (depth : ℚ) (d : ℤ) : List Member :=
  (rangeList d).map (defaultDiagonal sp ep depth d)

/-- The `truss_type.lower()` branch chain creating web members. -/
def webMembers (sp ep : Point3) (depth : ℚ) (d : ℤ) (truss_type : String) : List Member :=
  let t := pyLower truss_type
  if t = "pratt" then verticalMembers sp ep depth d ++ prattDiagonals sp ep depth d
  else if t = "warren" then warrenDiagonals sp ep depth d
  else if t = "vierendeel" then verticalMembers sp ep depth d
  else if t = "howe" then verticalMembers sp ep depth d ++ howeDiagonals sp ep depth d
  else if t = "brown" then verticalMembers sp ep depth d ++ brownDiagonals sp ep depth d
  else if t = "onedir" then onedirDiagonals sp ep depth d
  else verticalMembers sp ep depth d ++ defaultDiagonals sp ep depth d

/-- `RhinoBridgeHandler.create_truss_geometry`.  With `divisions = 0` the
source raises `ZeroDivisionError` at `t = i / divisions`, which its own
`except` clause converts into the return value `[]`; with negative
`divisions` every loop body is skipped.  `plane_direction` is an argument of
the source function that its body never reads. -/
def create_truss_geometry (sp ep : Point3) (depth : ℚ) (divisions : ℤ)
    (truss_type plane_direction : String) : List Member :=
  if divisions = 0 then []
  else
    topChordMembers sp ep divisions ++ bottomChordMembers sp ep depth divisions
      ++ webMembers sp ep depth divisions truss_type

/-- Member count by tag: `len([m for m in members if m.type == t])`. -/
def countMembers (ms : List Member) (t : String) : ℕ :=
  ms.countP (fun m => m.type == t)

lemma countMembers_append (a b : List Member) (t : String) :
    countMembers (a ++ b) t = countMembers a t + countMembers b t := by
  simp [countMembers, List.countP_append]

lemma countMembers_eq_length (ms : List Member) (t : String)
    (h : ∀ m ∈ ms, m.type = t) : countMembers ms t = ms.length := by
  unfold countMembers
  rw [List.countP_eq_length]
  intro m hm
  simp [h m hm]

lemma countMembers_eq_zero (ms : List Member) (t : String)
    (h : ∀ m ∈ ms, m.type ≠ t) : countMembers ms t = 0 := by
  unfold countMembers
  rw [List.countP_eq_zero]
  intro m hm
  simp [h m hm]

lemma topChordMembers_type (sp ep : Point3) (d : ℤ) :
    ∀ m ∈ topChordMembers sp ep d, m.type = "top_chord" := by
  intro m hm
  rcases List.mem_map.mp hm with ⟨i, _, rfl⟩
  rfl

lemma bottomChordMembers_type (sp ep : Point3) (depth : ℚ) (d : ℤ) :
    ∀ m ∈ bottomChordMembers sp ep depth d, m.type = "bottom_chord" := by
  intro m hm
  rcases List.mem_map.mp hm with ⟨i, _, rfl⟩
  rfl

lemma verticalMembers_type (sp ep : Point3) (depth : ℚ) (d : ℤ) :
    ∀ m ∈ verticalMembers sp ep depth d, m.type = "vertical" := by
  intro m hm
  rcases List.mem_map.mp hm with ⟨i, _, rfl⟩
  rfl

lemma prattDiagonals_type (sp ep : Point3) (depth : ℚ) (d : ℤ) :
    ∀ m ∈ prattDiagonals sp ep depth d, m.type = "diagonal" := by
  intro m hm
  rcases List.mem_map.mp hm with ⟨i, _, rfl⟩
  rfl

lemma warrenDiagonals_type (sp ep : Point3) (depth : ℚ) (d : ℤ) :
    ∀ m ∈ warrenDiagonals sp ep depth d, m.type = "diagonal" := by
  intro m hm
  rcases List.mem_map.mp hm with ⟨i, _, rfl⟩
  rfl

lemma howeDiagonals_type (sp ep : Point3) (depth : ℚ) (d : ℤ) :
    ∀ m ∈ howeDiagonals sp ep depth d, m.type = "diagonal" := by
  intro m hm
  rcases List.mem_map.mp hm with ⟨i, _, rfl⟩
  rfl

lemma brownDiagonals_type (sp ep : Point3) (depth : ℚ) (d : ℤ) :
    ∀ m ∈ brownDiagonals sp ep depth d, m.type = "diagonal" := by
  intro m hm
  rcases List.mem_flatMap.mp hm with ⟨i, _, hmem⟩
  simp only [brownBayDiagonals, List.mem_cons, List.mem_singleton, List.not_mem_nil,
    or_false] at hmem
  rcases hmem with rfl | rfl <;> rfl

lemma onedirDiagonals_type (sp ep : Point3) (depth : ℚ) (d : ℤ) :
    ∀ m ∈ onedirDiagonals sp ep depth d, m.type = "diagonal" := by
  intro m hm
  rcases List.mem_map.mp hm with ⟨i, _, rfl⟩
  rfl

lemma defaultDiagonals_type (sp ep : Point3) (depth : ℚ) (d : ℤ) :
    ∀ m ∈ defaultDiagonals sp ep depth d, m.type = "diagonal" := by
  intro m hm
  rcases List.mem_map.mp hm with ⟨i, _, rfl⟩
  rfl

lemma webMembers_type (sp ep : Point3) (depth : ℚ) (d : ℤ) (tt : String) :
    ∀ m ∈ webMembers sp ep depth d tt,
      m.type = "vertical" ∨ m.type = "diagonal" := by
  intro m hm
  simp only [webMembers] at hm
  split_ifs at hm <;>
    first
    | (rcases List.mem_append.mp hm with h | h
       · exact Or.inl (verticalMembers_type sp ep depth d m h)
       · first
         | exact Or.inr (prattDiagonals_type sp ep depth d m h)
         | exact Or.inr (howeDiagonals_type sp ep depth d m h)
         | exact Or.inr (brownDiagonals_type sp ep depth d m h)
         | exact Or.inr (defaultDiagonals_type sp ep depth d m h))
    | exact Or.inr (warrenDiagonals_type sp ep depth d m hm)
    | exact Or.inl (verticalMembers_type sp ep depth d m hm)
    | exact Or.inr (onedirDiagonals_type sp ep depth d m hm)

lemma topChordMembers_length (sp ep : Point3) (d : ℤ) :
    (topChordMembers sp ep d).length = d.toNat := by
  simp [topChordMembers, rangeList]

lemma bottomChordMembers_length (sp ep : Point3) (depth : ℚ) (d : ℤ) :
    (bottomChordMembers sp ep depth d).length = d.toNat := by
  simp [bottomChordMembers, rangeList]

lemma verticalMembers_length (sp ep : Point3) (depth : ℚ) (d : ℤ) :
    (verticalMembers sp ep depth d).length = (d + 1).toNat := by
  simp [verticalMembers, rangeList]

lemma prattDiagonals_length (sp ep : Point3) (depth : ℚ) (d : ℤ) :
    (prattDiagonals sp ep depth d).length = d.toNat := by
  simp [prattDiagonals, rangeList]

lemma warrenDiagonals_length (sp ep : Point3) (depth : ℚ) (d : ℤ) :
    (warrenDiagonals sp ep depth d).length = d.toNat := by
  simp [warrenDiagonals, rangeList]

lemma howeDiagonals_length (sp ep : Point3) (depth : ℚ) (d : ℤ) :
    (howeDiagonals sp ep depth d).length = d.toNat := by
  simp [howeDiagonals, rangeList]

lemma brownDiagonals_length (sp ep : Point3) (depth : ℚ) (d : ℤ) :
    (brownDiagonals sp ep depth d).length = 2 * d.toNat := by
  unfold brownDiagonals rangeList
  induction d.toNat with
  | zero => rfl
  | succ n ih =>
      rw [List.range_succ, List.flatMap_append]
      simp only [List.length_append, ih]
      simp [brownBayDiagonals]
      omega

lemma onedirDiagonals_length (sp ep : Point3) (depth : ℚ) (d : ℤ) :
    (onedirDiagonals sp ep depth d).length = d.toNat := by
  simp [onedirDiagonals, rangeList]

lemma defaultDiagonals_length (sp ep : Point3) (depth : ℚ) (d : ℤ) :
    (defaultDiagonals sp ep depth d).length = d.toNat := by
  simp [defaultDiagonals, rangeList]

lemma webMembers_pratt (sp ep : Point3) (depth : ℚ) (d : ℤ) :
    webMembers sp ep depth d "Pratt" =
      verticalMembers sp ep depth d ++ prattDiagonals sp ep depth d := rfl

lemma webMembers_warren (sp ep : Point3) (depth : ℚ) (d : ℤ) :
    webMembers sp ep depth d "Warren" = warrenDiagonals sp ep depth d := rfl

lemma webMembers_vierendeel (sp ep : Point3) (depth : ℚ) (d : ℤ) :
    webMembers sp ep depth d "Vierendeel" = verticalMembers sp ep depth d := rfl

lemma webMembers_howe (sp ep : Point3) (depth : ℚ) (d : ℤ) :
    webMembers sp ep depth d "Howe" =
      verticalMembers sp ep depth d ++ howeDiagonals sp ep depth d := rfl

lemma webMembers_brown (sp ep : Point3) (depth : ℚ) (d : ℤ) :
    webMembers sp ep depth d "Brown" =
      verticalMembers sp ep depth d ++ brownDiagonals sp ep depth d := rfl

lemma webMembers_onedir (sp ep : Point3) (depth : ℚ) (d : ℤ) :
    webMembers sp ep depth d "Onedir" = onedirDiagonals sp ep depth d := rfl

lemma web_chord_counts (sp ep : Point3) (depth : ℚ) (d : ℤ) (tt : String) :
    countMembers (webMembers sp ep depth d tt) "top_chord" = 0 ∧
    countMembers (webMembers sp ep depth d tt) "bottom_chord" = 0 := by
  refine ⟨?_, ?_⟩ <;>
    · apply countMembers_eq_zero
      intro m hm
      rcases webMembers_type sp ep depth d tt m hm with h | h <;> rw [h] <;> decide

lemma web_counts_pratt (sp ep : Point3) (depth : ℚ) (d : ℤ) :
    countMembers (webMembers sp ep depth d "Pratt") "vertical" = (d + 1).toNat ∧
    countMembers (webMembers sp ep depth d "Pratt") "diagonal" = d.toNat := by
  rw [webMembers_pratt, countMembers_append, countMembers_append]
  constructor
  · rw [countMembers_eq_length _ _ (verticalMembers_type sp ep depth d),
      verticalMembers_length,
      countMembers_eq_zero _ _ (fun m hm => by
        rw [prattDiagonals_type sp ep depth d m hm]; decide)]
    simp
  · rw [countMembers_eq_zero _ _ (fun m hm => by
        rw [verticalMembers_type sp ep depth d m hm]; decide),
      countMembers_eq_length _ _ (prattDiagonals_type sp ep depth d),
      prattDiagonals_length]
    simp

lemma web_counts_warren (sp ep : Point3) (depth : ℚ) (d : ℤ) :
    countMembers (webMembers sp ep depth d "Warren") "vertical" = 0 ∧
    countMembers (webMembers sp ep depth d "Warren") "diagonal" = d.toNat := by
  rw [webMembers_warren]
  constructor
  · exact countMembers_eq_zero _ _ (fun m hm => by
      rw [warrenDiagonals_type sp ep depth d m hm]; decide)
  · rw [countMembers_eq_length _ _ (warrenDiagonals_type sp ep depth d),
      warrenDiagonals_length]

lemma web_counts_vierendeel (sp ep : Point3) (depth : ℚ) (d : ℤ) :
    countMembers (webMembers sp ep depth d "Vierendeel") "vertical" = (d + 1).toNat ∧
    countMembers (webMembers sp ep depth d "Vierendeel") "diagonal" = 0 := by
  rw [webMembers_vierendeel]
  constructor
  · rw [countMembers_eq_length _ _ (verticalMembers_type sp ep depth d),
      verticalMembers_length]
  · exact countMembers_eq_zero _ _ (fun m hm => by
      rw [verticalMembers_type sp ep depth d m hm]; decide)

lemma web_counts_howe (sp ep : Point3) (depth : ℚ) (d : ℤ) :
    countMembers (webMembers sp ep depth d "Howe") "vertical" = (d + 1).toNat ∧
    countMembers (webMembers sp ep depth d "Howe") "diagonal" = d.toNat := by
  rw [webMembers_howe, countMembers_append, countMembers_append]
  constructor
  · rw [countMembers_eq_length _ _ (verticalMembers_type sp ep depth d),
      verticalMembers_length,
      countMembers_eq_zero _ _ (fun m hm => by
        rw [howeDiagonals_type sp ep depth d m hm]; decide)]
    simp
  · rw [countMembers_eq_zero _ _ (fun m hm => by
        rw [verticalMembers_type sp ep depth d m hm]; decide),
      countMembers_eq_length _ _ (howeDiagonals_type sp ep depth d),
      howeDiagonals_length]
    simp

lemma web_counts_brown (sp ep : Point3) (depth : ℚ) (d : ℤ) :
    countMembers (webMembers sp ep depth d "Brown") "vertical" = (d + 1).toNat ∧
    countMembers (webMembers sp ep depth d "Brown") "diagonal" = 2 * d.toNat := by
  rw [webMembers_brown, countMembers_append, countMembers_append]
  constructor
  · rw [countMembers_eq_length _ _ (verticalMembers_type sp ep depth d),
      verticalMembers_length,
      countMembers_eq_zero _ _ (fun m hm => by
        rw [brownDiagonals_type sp ep depth d m hm]; decide)]
    simp
  · rw [countMembers_eq_zero _ _ (fun m hm => by
        rw [verticalMembers_type sp ep depth d m hm]; decide),
      countMembers_eq_length _ _ (brownDiagonals_type sp ep depth d),
      brownDiagonals_length]
    simp

lemma web_counts_onedir (sp ep : Point3) (depth : ℚ) (d : ℤ) :
    countMembers (webMembers sp ep depth d "Onedir") "vertical" = 0 ∧
    countMembers (webMembers sp ep depth d "Onedir") "diagonal" = d.toNat := by
  rw [webMembers_onedir]
  constructor
  · exact countMembers_eq_zero _ _ (fun m hm => by
      rw [onedirDiagonals_type sp ep depth d m hm]; decide)
  · rw [countMembers_eq_length _ _ (onedirDiagonals_type sp ep depth d),
      onedirDiagonals_length]

lemma topChord_count_ne (sp ep : Point3) (d : ℤ) (t : String)
    (h : t ≠ "top_chord") : countMembers (topChordMembers sp ep d) t = 0 :=
  countMembers_eq_zero _ _ (fun m hm => by
    rw [topChordMembers_type sp ep d m hm]; exact fun hh => h hh.symm)

lemma bottomChord_count_ne (sp ep : Point3) (depth : ℚ) (d : ℤ) (t : String)
    (h : t ≠ "bottom_chord") :
    countMembers (bottomChordMembers sp ep depth d) t = 0 :=
  countMembers_eq_zero _ _ (fun m hm => by
    rw [bottomChordMembers_type sp ep depth d m hm]; exact fun hh => h hh.symm)

lemma ctg_expand (sp ep : Point3) (depth : ℚ) (d : ℤ) (tt pd : String) (hd : d ≠ 0) :
    create_truss_geometry sp ep depth d tt pd =
      topChordMembers sp ep d ++ bottomChordMembers sp ep depth d
        ++ webMembers sp ep depth d tt := by
  unfold create_truss_geometry
  rw [if_neg hd]

lemma ctg_count_web (sp ep : Point3) (depth : ℚ) (d : ℤ) (tt pd t : String)
    (hd : d ≠ 0) (h1 : t ≠ "top_chord") (h2 : t ≠ "bottom_chord") :
    countMembers (create_truss_geometry sp ep depth d tt pd) t =
      countMembers (webMembers sp ep depth d tt) t := by
  rw [ctg_expand sp ep depth d tt pd hd, countMembers_append, countMembers_append,
    topChord_count_ne sp ep d t h1, bottomChord_count_ne sp ep depth d t h2]
  simp

/-- C1: for every division count `d ≥ 1` (with every host line creation
succeeding), the generator emits exactly `d` top-chord and `d` bottom-chord
segments for every topology string, and the web members are determined by the
topology: Vierendeel gives `d+1` verticals and no diagonals, Pratt and Howe
give `d+1` verticals and `d` diagonals, Brown gives `d+1` verticals and `2d`
diagonals, Warren and Onedir give no verticals and `d` diagonals. -/
theorem truss_member_counts (sp ep : Point3) (depth : ℚ) (pd : String) (d : ℕ)
    (hd : 1 ≤ d) :
    (∀ tt : String,
      countMembers (create_truss_geometry sp ep depth (d : ℤ) tt pd) "top_chord" = d ∧
      countMembers (create_truss_geometry sp ep depth (d : ℤ) tt pd) "bottom_chord" = d) ∧
    (countMembers (create_truss_geometry sp ep depth (d : ℤ) "Vierendeel" pd) "vertical" = d + 1 ∧
     countMembers (create_truss_geometry sp ep depth (d : ℤ) "Vierendeel" pd) "diagonal" = 0) ∧
    (countMembers (create_truss_geometry sp ep depth (d : ℤ) "Pratt" pd) "vertical" = d + 1 ∧
     countMembers (create_truss_geometry sp ep depth (d : ℤ) "Pratt" pd) "diagonal" = d) ∧
    (countMembers (create_truss_geometry sp ep depth (d : ℤ) "Howe" pd) "vertical" = d + 1 ∧
     countMembers (create_truss_geometry sp ep depth (d : ℤ) "Howe" pd) "diagonal" = d) ∧
    (countMembers (create_truss_geometry sp ep depth (d : ℤ) "Brown" pd) "vertical" = d + 1 ∧
     countMembers (create_truss_geometry sp ep depth (d : ℤ) "Brown" pd) "diagonal" = 2 * d) ∧
    (countMembers (create_truss_geometry sp ep depth (d : ℤ) "Warren" pd) "vertical" = 0 ∧
     countMembers (create_truss_geometry sp ep depth (d : ℤ) "Warren" pd) "diagonal" = d) ∧
    (countMembers (create_truss_geometry sp ep depth (d : ℤ) "Onedir" pd) "vertical" = 0 ∧
     countMembers (create_truss_geometry sp ep depth (d : ℤ) "Onedir" pd) "diagonal" = d) := by
  have hdz : (d : ℤ) ≠ 0 := by omega
  have htn : ((d : ℤ)).toNat = d := by omega
  have htn1 : ((d : ℤ) + 1).toNat = d + 1 := by omega
  refine ⟨?_, ?_, ?_, ?_, ?_, ?_, ?_⟩
  · intro tt
    rw [ctg_expand sp ep depth (d : ℤ) tt pd hdz]
    constructor
    · rw [countMembers_append, countMembers_append,
        countMembers_eq_length _ _ (topChordMembers_type sp ep (d : ℤ)),
        topChordMembers_length,
        bottomChord_count_ne sp ep depth (d : ℤ) "top_chord" (by decide),
        (web_chord_counts sp ep depth (d : ℤ) tt).1, htn]
      simp
    · rw [countMembers_append, countMembers_append,
        countMembers_eq_length _ _ (bottomChordMembers_type sp ep depth (d : ℤ)),
        bottomChordMembers_length,
        topChord_count_ne sp ep (d : ℤ) "bottom_chord" (by decide),
        (web_chord_counts sp ep depth (d : ℤ) tt).2, htn]
      simp
  · rw [ctg_count_web sp ep depth (d : ℤ) _ pd _ hdz (by decide) (by decide),
      ctg_count_web sp ep depth (d : ℤ) _ pd _ hdz (by decide) (by decide),
      (web_counts_vierendeel sp ep depth (d : ℤ)).1,
      (web_counts_vierendeel sp ep depth (d : ℤ)).2, htn1]
    exact ⟨rfl, rfl⟩
  · rw [ctg_count_web sp ep depth (d : ℤ) _ pd _ hdz (by decide) (by decide),
      ctg_count_web sp ep depth (d : ℤ) _ pd _ hdz (by decide) (by decide),
      (web_counts_pratt sp ep depth (d : ℤ)).1,
      (web_counts_pratt sp ep depth (d : ℤ)).2, htn1, htn]
    exact ⟨rfl, rfl⟩
  · rw [ctg_count_web sp ep depth (d : ℤ) _ pd _ hdz (by decide) (by decide),
      ctg_count_web sp ep depth (d : ℤ) _ pd _ hdz (by decide) (by decide),
      (web_counts_howe sp ep depth (d : ℤ)).1,
      (web_counts_howe sp ep depth (d : ℤ)).2, htn1, htn]
    exact ⟨rfl, rfl⟩
  · rw [ctg_count_web sp ep depth (d : ℤ) _ pd _ hdz (by decide) (by decide),
      ctg_count_web sp ep depth (d : ℤ) _ pd _ hdz (by decide) (by decide),
      (web_counts_brown sp ep depth (d : ℤ)).1,
      (web_counts_brown sp ep depth (d : ℤ)).2, htn1, htn]
    exact ⟨rfl, rfl⟩
  · rw [ctg_count_web sp ep depth (d : ℤ) _ pd _ hdz (by decide) (by decide),
      ctg_count_web sp ep depth (d : ℤ) _ pd _ hdz (by decide) (by decide),
      (web_counts_warren sp ep depth (d : ℤ)).1,
      (web_counts_warren sp ep depth (d : ℤ)).2, htn]
    exact ⟨rfl, rfl⟩
  · rw [ctg_count_web sp ep depth (d : ℤ) _ pd _ hdz (by decide) (by decide),
      ctg_count_web sp ep depth (d : ℤ) _ pd _ hdz (by decide) (by decide),
      (web_counts_onedir sp ep depth (d : ℤ)).1,
      (web_counts_onedir sp ep depth (d : ℤ)).2, htn]
    exact ⟨rfl, rfl⟩

/-- Witness for C1 at the claim's concrete instance `d = 4`: Vierendeel gives
5 verticals, 0 diagonals and 4 segments per chord; Pratt gives 5 verticals
and 4 diagonals; Brown gives 5 verticals and 8 diagonals. -/
theorem truss_member_counts_witness :
    countMembers (create_truss_geometry ⟨0, 0, 0⟩ ⟨10, 0, 0⟩ 2 (4 : ℤ)
      "Vierendeel" "perpendicular") "vertical" = 5 ∧
    countMembers (create_truss_geometry ⟨0, 0, 0⟩ ⟨10, 0, 0⟩ 2 (4 : ℤ)
      "Vierendeel" "perpendicular") "diagonal" = 0 ∧
    countMembers (create_truss_geometry ⟨0, 0, 0⟩ ⟨10, 0, 0⟩ 2 (4 : ℤ)
      "Vierendeel" "perpendicular") "top_chord" = 4 ∧
    countMembers (create_truss_geometry ⟨0, 0, 0⟩ ⟨10, 0, 0⟩ 2 (4 : ℤ)
      "Vierendeel" "perpendicular") "bottom_chord" = 4 ∧
    countMembers (create_truss_geometry ⟨0, 0, 0⟩ ⟨10, 0, 0⟩ 2 (4 : ℤ)
      "Pratt" "perpendicular") "vertical" = 5 ∧
    countMembers (create_truss_geometry ⟨0, 0, 0⟩ ⟨10, 0, 0⟩ 2 (4 : ℤ)
      "Pratt" "perpendicular") "diagonal" = 4 ∧
    countMembers (create_truss_geometry ⟨0, 0, 0⟩ ⟨10, 0, 0⟩ 2 (4 : ℤ)
      "Brown" "perpendicular") "vertical" = 5 ∧
    countMembers (create_truss_geometry ⟨0, 0, 0⟩ ⟨10, 0, 0⟩ 2 (4 : ℤ)
      "Brown" "perpendicular") "diagonal" = 8 := by
  have h := truss_member_counts ⟨0, 0, 0⟩ ⟨10, 0, 0⟩ 2 "perpendicular" 4 (by decide)
  exact ⟨h.2.1.1, h.2.1.2, (h.1 "Vierendeel").1, (h.1 "Vierendeel").2,
    h.2.2.1.1, h.2.2.1.2, h.2.2.2.2.1.1, h.2.2.2.2.1.2⟩

/-- The node set of claim C2: the `divisions + 1` interpolated top points and
their depth-offset bottom partners. -/
def isNode (sp ep : Point3) (depth : ℚ) (d : ℕ) (p : Point3) : Prop :=
  ∃ i ≤ d, p = topPoint sp ep (d : ℤ) i ∨ p = bottomPoint sp ep depth (d : ℤ) i

lemma topPoint_node (sp ep : Point3) (depth : ℚ) (d : ℕ) (i : ℕ) (h : i ≤ d) :
    isNode sp ep depth d (topPoint sp ep (d : ℤ) i) := ⟨i, h, Or.inl rfl⟩

lemma bottomPoint_node (sp ep : Point3) (depth : ℚ) (d : ℕ) (i : ℕ) (h : i ≤ d) :
    isNode sp ep depth d (bottomPoint sp ep depth (d : ℤ) i) := ⟨i, h, Or.inr rfl⟩

lemma topChordMembers_nodes (sp ep : Point3) (depth : ℚ) (d : ℕ) :
    ∀ m ∈ topChordMembers sp ep (d : ℤ),
      isNode sp ep depth d m.start ∧ isNode sp ep depth d m.endP := by
  intro m hm
  rcases List.mem_map.mp hm with ⟨i, hi, rfl⟩
  rw [rangeList, List.mem_range] at hi
  have hid : i + 1 ≤ d := by omega
  exact ⟨topPoint_node sp ep depth d i (by omega), topPoint_node sp ep depth d (i + 1) hid⟩

lemma bottomChordMembers_nodes (sp ep : Point3) (depth : ℚ) (d : ℕ) :
    ∀ m ∈ bottomChordMembers sp ep depth (d : ℤ),
      isNode sp ep depth d m.start ∧ isNode sp ep depth d m.endP := by
  intro m hm
  rcases List.mem_map.mp hm with ⟨i, hi, rfl⟩
  rw [rangeList, List.mem_range] at hi
  have hid : i + 1 ≤ d := by omega
  exact ⟨bottomPoint_node sp ep depth d i (by omega), bottomPoint_node sp ep depth d (i + 1) hid⟩

lemma verticalMembers_nodes (sp ep : Point3) (depth : ℚ) (d : ℕ) :
    ∀ m ∈ verticalMembers sp ep depth (d : ℤ),
      isNode sp ep depth d m.start ∧ isNode sp ep depth d m.endP := by
  intro m hm
  rcases List.mem_map.mp hm with ⟨i, hi, rfl⟩
  rw [rangeList, List.mem_range] at hi
  have hid : i ≤ d := by omega
  exact ⟨topPoint_node sp ep depth d i hid, bottomPoint_node sp ep depth d i hid⟩

lemma prattDiagonals_nodes (sp ep : Point3) (depth : ℚ) (d : ℕ) :
    ∀ m ∈ prattDiagonals sp ep depth (d : ℤ),
      isNode sp ep depth d m.start ∧ isNode sp ep depth d m.endP := by
  intro m hm
  rcases List.mem_map.mp hm with ⟨i, hi, rfl⟩
  rw [rangeList, List.mem_range] at hi
  have hid : i ≤ d := by omega
  have hid1 : i + 1 ≤ d := by omega
  unfold prattDiagonal
  by_cases hp : i % 2 = 0
  · rw [if_pos hp]
    exact ⟨bottomPoint_node sp ep depth d i hid, by
      dsimp only
      rw [if_pos hp]
      exact topPoint_node sp ep depth d (i + 1) hid1⟩
  · rw [if_neg hp]
    exact ⟨topPoint_node sp ep depth d i hid, by
      dsimp only
      rw [if_neg hp]
      exact bottomPoint_node sp ep depth d (i + 1) hid1⟩

lemma warrenDiagonals_nodes (sp ep : Point3) (depth : ℚ) (d : ℕ) :
    ∀ m ∈ warrenDiagonals sp ep depth (d : ℤ),
      isNode sp ep depth d m.start ∧ isNode sp ep depth d m.endP := by
  intro m hm
  rcases List.mem_map.mp hm with ⟨i, hi, rfl⟩
  rw [rangeList, List.mem_range] at hi
  have hid : i ≤ d := by omega
  have hid1 : i + 1 ≤ d := by omega
  unfold warrenDiagonal
  by_cases hp : i % 2 = 0
  · rw [if_pos hp]
    exact ⟨bottomPoint_node sp ep depth d i hid, by
      dsimp only
      rw [if_pos hp]
      exact topPoint_node sp ep depth d (i + 1) hid1⟩
  · rw [if_neg hp]
    exact ⟨topPoint_node sp ep depth d i hid, by
      dsimp only
      rw [if_neg hp]
      exact bottomPoint_node sp ep depth d (i + 1) hid1⟩

lemma howeDiagonals_nodes (sp ep : Point3) (depth : ℚ) (d : ℕ) :
    ∀ m ∈ howeDiagonals sp ep depth (d : ℤ),
      isNode sp ep depth d m.start ∧ isNode sp ep depth d m.endP := by
  intro m hm
  rcases List.mem_map.mp hm with ⟨i, hi, rfl⟩
  rw [rangeList, List.mem_range] at hi
  have hid : i ≤ d := by omega
  have hid1 : i + 1 ≤ d := by omega
  unfold howeDiagonal
  by_cases hp : i % 2 = 0
  · rw [if_pos hp]
    exact ⟨topPoint_node sp ep depth d i hid, by
      dsimp only
      rw [if_pos hp]
      exact bottomPoint_node sp ep depth d (i + 1) hid1⟩
  · rw [if_neg hp]
    exact ⟨bottomPoint_node sp ep depth d i hid, by
      dsimp only
      rw [if_neg hp]
      exact topPoint_node sp ep depth d (i + 1) hid1⟩

lemma brownDiagonals_nodes (sp ep : Point3) (depth : ℚ) (d : ℕ) :
    ∀ m ∈ brownDiagonals sp ep depth (d : ℤ),
      isNode sp ep depth d m.start ∧ isNode sp ep depth d m.endP := by
  intro m hm
  rcases List.mem_flatMap.mp hm with ⟨i, hi, hmem⟩
  rw [rangeList, List.mem_range] at hi
  have hid : i ≤ d := by omega
  have hid1 : i + 1 ≤ d := by omega
  simp only [brownBayDiagonals, List.mem_cons, List.mem_singleton, List.not_mem_nil,
    or_false] at hmem
  rcases hmem with rfl | rfl
  · exact ⟨bottomPoint_node sp ep depth d i hid, topPoint_node sp ep depth d (i + 1) hid1⟩
  · exact ⟨topPoint_node sp ep depth d i hid, bottomPoint_node sp ep depth d (i + 1) hid1⟩

lemma onedirDiagonals_nodes (sp ep : Point3) (depth : ℚ) (d : ℕ) :
    ∀ m ∈ onedirDiagonals sp ep depth (d : ℤ),
      isNode sp ep depth d m.start ∧ isNode sp ep depth d m.endP := by
  intro m hm
  rcases List.mem_map.mp hm with ⟨i, hi, rfl⟩
  rw [rangeList, List.mem_range] at hi
  exact ⟨bottomPoint_node sp ep depth d i (by omega), topPoint_node sp ep depth d (i + 1) (by omega)⟩

lemma defaultDiagonals_nodes (sp ep : Point3) (depth : ℚ) (d : ℕ) :
    ∀ m ∈ defaultDiagonals sp ep depth (d : ℤ),
      isNode sp ep depth d m.start ∧ isNode sp ep depth d m.endP := by
  intro m hm
  rcases List.mem_map.mp hm with ⟨i, hi, rfl⟩
  rw [rangeList, List.mem_range] at hi
  have hid : i ≤ d := by omega
  have hid1 : i + 1 ≤ d := by omega
  unfold defaultDiagonal
  by_cases hp : i % 2 = 0
  · rw [if_pos hp]
    exact ⟨bottomPoint_node sp ep depth d i hid, by
      dsimp only
      rw [if_pos hp]
      exact topPoint_node sp ep depth d (i + 1) hid1⟩
  · rw [if_neg hp]
    exact ⟨topPoint_node sp ep depth d i hid, by
      dsimp only
      rw [if_neg hp]
      exact bottomPoint_node sp ep depth d (i + 1) hid1⟩

lemma webMembers_nodes (sp ep : Point3) (depth : ℚ) (d : ℕ) (tt : String) :
    ∀ m ∈ webMembers sp ep depth (d : ℤ) tt,
      isNode sp ep depth d m.start ∧ isNode sp ep depth d m.endP := by
  intro m hm
  simp only [webMembers] at hm
  split_ifs at hm <;>
    first
    | (rcases List.mem_append.mp hm with h | h
       · exact verticalMembers_nodes sp ep depth d m h
       · first
         | exact prattDiagonals_nodes sp ep depth d m h
         | exact howeDiagonals_nodes sp ep depth d m h
         | exact brownDiagonals_nodes sp ep depth d m h
         | exact defaultDiagonals_nodes sp ep depth d m h)
    | exact warrenDiagonals_nodes sp ep depth d m hm
    | exact verticalMembers_nodes sp ep depth d m hm
    | exact onedirDiagonals_nodes sp ep depth d m hm

/-- C2: for every `divisions = d ≥ 1`, every emitted member joins nodes of
the set consisting of the interpolated top points `T i` and the bottom points
`B i`; each `B i` is `T i` shifted by exactly `(0, 0, -depth)` along the
global Z axis, whatever the chord orientation; and the member list does not
depend on the `truss_plane_direction` argument at all. -/
theorem truss_nodes_and_fixed_depth (sp ep : Point3) (depth : ℚ) (tt pd : String)
    (d : ℕ) (hd : 1 ≤ d) :
    (∀ m ∈ create_truss_geometry sp ep depth (d : ℤ) tt pd,
        isNode sp ep depth d m.start ∧ isNode sp ep depth d m.endP) ∧
    (∀ i : ℕ, bottomPoint sp ep depth (d : ℤ) i =
        { x := (topPoint sp ep (d : ℤ) i).x
        , y := (topPoint sp ep (d : ℤ) i).y
        , z := (topPoint sp ep (d : ℤ) i).z - depth }) ∧
    (∀ pd' : String, create_truss_geometry sp ep depth (d : ℤ) tt pd =
        create_truss_geometry sp ep depth (d : ℤ) tt pd') := by
  refine ⟨?_, ?_, fun pd' => rfl⟩
  · intro m hm
    rw [ctg_expand sp ep depth (d : ℤ) tt pd (by omega)] at hm
    rcases List.mem_append.mp hm with h | h
    · rcases List.mem_append.mp h with h2 | h2
      · exact topChordMembers_nodes sp ep depth d m h2
      · exact bottomChordMembers_nodes sp ep depth d m h2
    · exact webMembers_nodes sp ep depth d tt m h
  · intro i
    simp [bottomPoint, Point3.mk.injEq, sub_eq_add_neg]

/-- Witness for C2 at a concrete instance (an inclined chord, `d = 4`,
topology Howe): the hypothesis `1 ≤ 4` is discharged and the three
conclusions hold for these inputs. -/
theorem truss_nodes_and_fixed_depth_witness :
    1 ≤ 4 ∧
    ((∀ m ∈ create_truss_geometry ⟨0, 0, 0⟩ ⟨10, 0, 5⟩ 2 ((4 : ℕ) : ℤ) "Howe" "perpendicular",
        isNode ⟨0, 0, 0⟩ ⟨10, 0, 5⟩ 2 4 m.start ∧ isNode ⟨0, 0, 0⟩ ⟨10, 0, 5⟩ 2 4 m.endP) ∧
    (∀ i : ℕ, bottomPoint ⟨0, 0, 0⟩ ⟨10, 0, 5⟩ 2 ((4 : ℕ) : ℤ) i =
        { x := (topPoint ⟨0, 0, 0⟩ ⟨10, 0, 5⟩ ((4 : ℕ) : ℤ) i).x
        , y := (topPoint ⟨0, 0, 0⟩ ⟨10, 0, 5⟩ ((4 : ℕ) : ℤ) i).y
        , z := (topPoint ⟨0, 0, 0⟩ ⟨10, 0, 5⟩ ((4 : ℕ) : ℤ) i).z - 2 }) ∧
    (∀ pd' : String, create_truss_geometry ⟨0, 0, 0⟩ ⟨10, 0, 5⟩ 2 ((4 : ℕ) : ℤ) "Howe" "perpendicular" =
        create_truss_geometry ⟨0, 0, 0⟩ ⟨10, 0, 5⟩ 2 ((4 : ℕ) : ℤ) "Howe" pd')) :=
  ⟨by decide, truss_nodes_and_fixed_depth ⟨0, 0, 0⟩ ⟨10, 0, 5⟩ 2 "Howe" "perpendicular" 4 (by decide)⟩

/-- C3: a topology string that is not (case-insensitively) one of the six
known names produces exactly the member list of `"Pratt"` on the same
inputs, for every input. -/
theorem truss_unknown_topology_defaults_to_pratt (sp ep : Point3) (depth : ℚ)
    (d : ℤ) (tt pd : String)
    (h : pyLower tt ∉ ["pratt", "warren", "vierendeel", "howe", "brown", "onedir"]) :
    create_truss_geometry sp ep depth d tt pd =
      create_truss_geometry sp ep depth d "Pratt" pd := by
  unfold create_truss_geometry
  by_cases hd : d = 0
  · rw [if_pos hd, if_pos hd]
  · rw [if_neg hd, if_neg hd]
    congr 1
    rw [webMembers_pratt]
    simp only [List.mem_cons, List.not_mem_nil, or_false] at h
    push_neg at h
    obtain ⟨h1, h2, h3, h4, h5, h6⟩ := h
    simp only [webMembers]
    rw [if_neg h1, if_neg h2, if_neg h3, if_neg h4, if_neg h5, if_neg h6]
    rfl

/-- Witness for C3 at the unknown topology string `"Fink"`, `d = 4`. -/
theorem truss_unknown_topology_defaults_to_pratt_witness :
    pyLower "Fink" ∉ ["pratt", "warren", "vierendeel", "howe", "brown", "onedir"] ∧
    create_truss_geometry ⟨0, 0, 0⟩ ⟨10, 0, 0⟩ 2 4 "Fink" "perpendicular" =
      create_truss_geometry ⟨0, 0, 0⟩ ⟨10, 0, 0⟩ 2 4 "Pratt" "perpendicular" :=
  ⟨by decide,
   truss_unknown_topology_defaults_to_pratt ⟨0, 0, 0⟩ ⟨10, 0, 0⟩ 2 4 "Fink" "perpendicular"
     (by decide)⟩

/-- A JSON value, the payload type of every request and response body.
Numbers are exact rationals. -/
inductive Json where
  | null : Json
  | bool : Bool → Json
  | num : ℚ → Json
  | str : String → Json
  | arr : List Json → Json
  | obj : List (String × Json) → Json
deriving Repr

/-- `data.get(k)` on a JSON object: the first binding of key `k`, if any. -/
def Json.getField : Json → String → Option Json
  | .obj fs, k => fs.lookup k
  | _, _ => none

/-- Numeric projection of an object field (`none` when absent or non-numeric). -/
def Json.getNumField (j : Json) (k : String) : Option ℚ :=
  match j.getField k with
  | some (.num q) => some q
  | _ => none

/-- String projection of an object field. -/
def Json.getStrField (j : Json) (k : String) : Option String :=
  match j.getField k with
  | some (.str s) => some s
  | _ => none

/-- Boolean projection of an object field. -/
def Json.getBoolField (j : Json) (k : String) : Option Bool :=
  match j.getField k with
  | some (.bool b) => some b
  | _ => none

/-- Python truthiness of a JSON value (`if not x:`). -/
def Json.isFalsy : Json → Bool
  | .null => true
  | .bool b => !b
  | .num q => q == 0
  | .str s => s == ""
  | .arr l => l.isEmpty
  | .obj l => l.isEmpty

/-- The body of a POST request as the dispatch code observes it: empty
(`Content-Length` missing or `0`, parsed as the empty object), or a
non-empty byte string, classified by what
`json.loads(post_data.decode('utf-8'))` does to it:
  * `notUtf8 strRepr` — the bytes are not valid UTF-8, so `decode` raises
    `UnicodeDecodeError` with `str(e) = strRepr` (this is a `ValueError`,
    NOT a `json.JSONDecodeError`);
  * `invalid raw` — the bytes decode to the text `raw` on which
    `json.loads` raises `JSONDecodeError`;
  * `json v` — the body parses to the JSON value `v`.
The decoder and parser themselves are below this model's abstraction level;
the inductive records their outcome. -/
inductive Body where
  | empty : Body
  | notUtf8 : String → Body
  | invalid : String → Body
  | json : Json → Body

/-- An incoming POST request: the URL path (after `urlparse(...).path`) and
the body. -/
structure Request where
  path : String
  body : Body

/-- An HTTP response: status code and JSON body. -/
structure HttpResponse where
  status : ℕ
  body : Json

/-- `send_error_response`: the fixed error JSON shape. -/
def send_error_response (status_code : ℕ) (message : String) : HttpResponse :=
  { status := status_code
  , body := .obj [("success", .bool false), ("error", .str message),
      ("status_code", .num status_code)] }

/-- The five endpoints of the `do_POST` `elif` chain. -/
def registeredEndpoints : List String :=
  ["/draw_line", "/list_sliders", "/set_slider", "/get_rhino_info", "/generate_truss"]

/-- What executing one routed handler method does, abstracting the host
state the handler touches: it either completes and sends a response, or
raises an exception with message `msg` that escapes the handler method. -/
inductive HandlerOutcome where
  | ok : HttpResponse → HandlerOutcome
  | exn : String → HandlerOutcome

/-- An environment assigning to each endpoint and request payload the
outcome of `self.handle_<endpoint>(request_data)`. -/
def HandlerEnv : Type := String → Json → HandlerOutcome

/-- Run the routed handler under `do_POST`'s `try`: a raised exception is
caught by `except Exception` and becomes HTTP 500 with the exception's
message.  The second component records the handler invocation (endpoint and
argument), `none` when no handler ran. -/
def runHandler (env : HandlerEnv) (endpoint : String) (d : Json) :
    HttpResponse × Option (String × Json) :=
  match env endpoint d with
  | .ok r => (r, some (endpoint, d))
  | .exn msg =>
      (send_error_response 500 ("Internal server error: " ++ msg), some (endpoint, d))

/-- The outcome of `do_POST`'s body-parsing step. -/
inductive ParseResult where
  | ok : Json → ParseResult
  | jsonError : ParseResult
  | decodeError : String → ParseResult

/-- The body-parsing step of `do_POST`: an empty body yields the empty
object; a `JSONDecodeError` is caught by `except json.JSONDecodeError`
(HTTP 400); a `UnicodeDecodeError` from `.decode('utf-8')` does not match
that clause and falls through to `except Exception` (HTTP 500), carrying
`str(e)`. -/
def parseBody : Body → ParseResult
  | .empty => .ok (.obj [])
  | .json v => .ok v
  | .invalid _ => .jsonError
  | .notUtf8 strRepr => .decodeError strRepr

/-- `RhinoBridgeHandler.do_POST`: parse the body, route by exact path over
the `elif` chain, and convert failures exactly as the source's `except`
clauses do: `JSONDecodeError` → 400, any other exception (in particular the
`UnicodeDecodeError` of a non-UTF-8 body) → 500 with
`"Internal server error: " ++ str(e)`.  The function is total: every
request produces a response. -/
def do_POST (env : HandlerEnv) (req : Request) :
    HttpResponse × Option (String × Json) :=
  match parseBody req.body with
  | .jsonError => (send_error_response 400 "Invalid JSON in request body", none)
  | .decodeError strRepr =>
      (send_error_response 500 ("Internal server error: " ++ strRepr), none)
  | .ok d =>
      if req.path = "/draw_line" then runHandler env req.path d
      else if req.path = "/list_sliders" then runHandler env req.path d
      else if req.path = "/set_slider" then runHandler env req.path d
      else if req.path = "/get_rhino_info" then runHandler env req.path d
      else if req.path = "/generate_truss" then runHandler env req.path d
      else (send_error_response 404 ("Unknown endpoint: " ++ req.path), none)

lemma do_POST_registered (env : HandlerEnv) (p : String) (d : Json)
    (hp : p ∈ registeredEndpoints) (b : Body) (hb : parseBody b = .ok d) :
    do_POST env { path := p, body := b } = runHandler env p d := by
  unfold do_POST
  rw [hb]
  simp only [registeredEndpoints, List.mem_cons, List.mem_singleton,
    List.not_mem_nil, or_false] at hp
  rcases hp with rfl | rfl | rfl | rfl | rfl <;> simp

/-- Counterexample to C4 as stated: a non-empty body that is not valid
UTF-8 — e.g. the single byte `0x80` — does not parse as JSON, yet the bridge
answers HTTP 500, not 400: `post_data.decode('utf-8')` raises
`UnicodeDecodeError`, which `except json.JSONDecodeError` does not match, so
`except Exception` converts it to a 500.  (No handler is invoked for it
either way.) -/
theorem do_POST_non_utf8_body_cex :
    (do_POST (fun _ _ => .ok { status := 200, body := .obj [] })
        { path := "/draw_line"
        , body := .notUtf8
            "utf-8 codec cannot decode byte 0x80 in position 0: invalid start byte" }).1.status
      = 500 ∧
    (do_POST (fun _ _ => .ok { status := 200, body := .obj [] })
        { path := "/draw_line"
        , body := .notUtf8
            "utf-8 codec cannot decode byte 0x80 in position 0: invalid start byte" }).1.status
      ≠ 400 ∧
    (do_POST (fun _ _ => .ok { status := 200, body := .obj [] })
        { path := "/draw_line"
        , body := .notUtf8
            "utf-8 codec cannot decode byte 0x80 in position 0: invalid start byte" }).2
      = none := by
  refine ⟨rfl, by show (500 : ℕ) ≠ 400; decide, rfl⟩

/-- C4 amended: a POST with an empty body is dispatched to its registered
handler with the empty JSON object as argument; a POST whose non-empty body
decodes as UTF-8 but fails `json.loads` gets HTTP 400 with a
`success = false`, `status_code = 400` JSON error body — not 500 — and no
handler is invoked; but a POST whose non-empty body is not valid UTF-8 is
answered HTTP 500 (`"Internal server error: " ++ str(UnicodeDecodeError)`),
also with no handler invoked. -/
theorem do_POST_body_parsing (env : HandlerEnv) (p : String)
    (hp : p ∈ registeredEndpoints) :
    ((do_POST env { path := p, body := .empty }).2 = some (p, .obj [])) ∧
    (∀ (p' raw : String),
      do_POST env { path := p', body := .invalid raw } =
        (send_error_response 400 "Invalid JSON in request body", none) ∧
      (do_POST env { path := p', body := .invalid raw }).1.status = 400 ∧
      (do_POST env { path := p', body := .invalid raw }).1.status ≠ 500 ∧
      (do_POST env { path := p', body := .invalid raw }).1.body.getBoolField "success"
        = some false ∧
      (do_POST env { path := p', body := .invalid raw }).1.body.getNumField "status_code"
        = some 400 ∧
      (do_POST env { path := p', body := .invalid raw }).2 = none) ∧
    (∀ (p' strRepr : String),
      do_POST env { path := p', body := .notUtf8 strRepr } =
        (send_error_response 500 ("Internal server error: " ++ strRepr), none) ∧
      (do_POST env { path := p', body := .notUtf8 strRepr }).1.status = 500 ∧
      (do_POST env { path := p', body := .notUtf8 strRepr }).2 = none) := by
  refine ⟨?_, ?_, ?_⟩
  · rw [do_POST_registered env p (.obj []) hp .empty rfl]
    unfold runHandler
    cases env p (.obj []) <;> rfl
  · intro p' raw
    refine ⟨rfl, rfl, by show (400 : ℕ) ≠ 500; decide, rfl, rfl, rfl⟩
  · intro p' strRepr
    refine ⟨rfl, rfl, rfl⟩

/-- Witness for the amended C4: endpoint `/draw_line` under a concrete
handler environment. -/
theorem do_POST_body_parsing_witness :
    ("/draw_line" ∈ registeredEndpoints) ∧
    (((do_POST (fun _ _ => .ok { status := 200, body := .obj [] })
        { path := "/draw_line", body := .empty }).2 = some ("/draw_line", .obj [])) ∧
    (∀ (p' raw : String),
      do_POST (fun _ _ => .ok { status := 200, body := .obj [] })
          { path := p', body := .invalid raw } =
        (send_error_response 400 "Invalid JSON in request body", none) ∧
      (do_POST (fun _ _ => .ok { status := 200, body := .obj [] })
          { path := p', body := .invalid raw }).1.status = 400 ∧
      (do_POST (fun _ _ => .ok { status := 200, body := .obj [] })
          { path := p', body := .invalid raw }).1.status ≠ 500 ∧
      (do_POST (fun _ _ => .ok { status := 200, body := .obj [] })
          { path := p', body := .invalid raw }).1.body.getBoolField "success" = some false ∧
      (do_POST (fun _ _ => .ok { status := 200, body := .obj [] })
          { path := p', body := .invalid raw }).1.body.getNumField "status_code" = some 400 ∧
      (do_POST (fun _ _ => .ok { status := 200, body := .obj [] })
          { path := p', body := .invalid raw }).2 = none) ∧
    (∀ (p' strRepr : String),
      do_POST (fun _ _ => .ok { status := 200, body := .obj [] })
          { path := p', body := .notUtf8 strRepr } =
        (send_error_response 500 ("Internal server error: " ++ strRepr), none) ∧
      (do_POST (fun _ _ => .ok { status := 200, body := .obj [] })
          { path := p', body := .notUtf8 strRepr }).1.status = 500 ∧
      (do_POST (fun _ _ => .ok { status := 200, body := .obj [] })
          { path := p', body := .notUtf8 strRepr }).2 = none)) :=
  ⟨by decide,
   do_POST_body_parsing (fun _ _ => .ok { status := 200, body := .obj [] })
     "/draw_line" (by decide)⟩

/-- C5: when the routed handler of a registered endpoint raises, `do_POST`
catches the exception and responds HTTP 500 with a `success = false`,
`status_code = 500` body whose error message contains the exception's
message; the handler was invoked and nothing propagates (`do_POST` is a
total function by construction). -/
theorem do_POST_handler_exception (env : HandlerEnv) (p : String) (d : Json)
    (msg : String) (b : Body) (hp : p ∈ registeredEndpoints)
    (hb : parseBody b = .ok d) (he : env p d = .exn msg) :
    do_POST env { path := p, body := b } =
      (send_error_response 500 ("Internal server error: " ++ msg), some (p, d)) ∧
    (do_POST env { path := p, body := b }).1.status = 500 ∧
    (do_POST env { path := p, body := b }).1.body.getBoolField "success" = some false ∧
    (do_POST env { path := p, body := b }).1.body.getNumField "status_code" = some 500 ∧
    (∃ pre suf : String,
      (do_POST env { path := p, body := b }).1.body.getStrField "error"
        = some (pre ++ msg ++ suf)) := by
  have hrun : do_POST env { path := p, body := b } =
      (send_error_response 500 ("Internal server error: " ++ msg), some (p, d)) := by
    rw [do_POST_registered env p d hp b hb]
    unfold runHandler
    rw [he]
  refine ⟨hrun, ?_, ?_, ?_, ?_⟩
  · rw [hrun]; rfl
  · rw [hrun]; rfl
  · rw [hrun]; rfl
  · refine ⟨"Internal server error: ", "", ?_⟩
    rw [hrun]
    show some ("Internal server error: " ++ msg)
      = some ("Internal server error: " ++ msg ++ "")
    rw [String.append_empty]

/-- Witness for C5: a handler for `/set_slider` that raises with message
`"boom"` on the payload `obj []`. -/
theorem do_POST_handler_exception_witness :
    ("/set_slider" ∈ registeredEndpoints) ∧
    parseBody (.json (.obj [])) = .ok (.obj []) ∧
    ((fun (_ : String) (_ : Json) => HandlerOutcome.exn "boom") "/set_slider" (.obj [])
      = .exn "boom") ∧
    do_POST (fun _ _ => .exn "boom") { path := "/set_slider", body := .json (.obj []) } =
      (send_error_response 500 ("Internal server error: " ++ "boom"),
        some ("/set_slider", .obj [])) :=
  ⟨by decide, rfl, rfl,
   (do_POST_handler_exception (fun _ _ => .exn "boom") "/set_slider" (.obj []) "boom"
     (.json (.obj [])) (by decide) rfl rfl).1⟩

/-- Python `float(x)` on a JSON value: numbers are themselves, booleans are
`1`/`0`; anything else raises (numeric strings are not used by any claim and
are modelled as raising too). -/
def pyFloat : Json → Option ℚ
  | .num q => some q
  | .bool b => some (if b then 1 else 0)
  | _ => none

/-- Python `int(x)` applied after `float`-style coercion: truncation toward
zero. -/
def pyInt (q : ℚ) : ℤ := if q < 0 then ⌈q⌉ else ⌊q⌋

/-- `float(data.get(k, dflt))`. -/
def getFloatParam (data : Json) (k : String) (dflt : ℚ) : Option ℚ :=
  pyFloat ((data.getField k).getD (.num dflt))

/-- The parameters `handle_generate_truss` extracts from the request. -/
structure TrussParams where
  sp : Point3
  ep : Point3
  truss_depth : ℚ
  num_divisions : ℤ
  truss_type : String
  plane_direction : String
deriving DecidableEq, Repr

/-- The parameter-extraction prefix of `handle_generate_truss`.  `none`
models a raised conversion error (caught by the handler's `except`, which
answers HTTP 500).  `data.get` on a non-object raises, hence the outer
match.  `clear_previous` only drives the side-effecting
`clear_previous_trusses` call, which touches no claim and is not modelled. -/
def extractTrussParams (data : Json) : Option TrussParams :=
  match data with
  | .obj _ => do
      let sx ← getFloatParam data "upper_line_start_x" 0
      let sy ← getFloatParam data "upper_line_start_y" 0
      let sz ← getFloatParam data "upper_line_start_z" 0
      let ex ← getFloatParam data "upper_line_end_x" 10
      let ey ← getFloatParam data "upper_line_end_y" 0
      let ez ← getFloatParam data "upper_line_end_z" 0
      let dep ← getFloatParam data "truss_depth" 2
      let ndq ← pyFloat ((data.getField "num_divisions").getD (.num 4))
      let tt ← match (data.getField "truss_type").getD (.str "Pratt") with
        | .str s => some s
        | _ => none
      let pd := match data.getField "truss_plane_direction" with
        | some (.str s) => s
        | _ => "perpendicular"
      some ⟨⟨sx, sy, sz⟩, ⟨ex, ey, ez⟩, dep, pyInt ndq, tt, pd⟩
  | _ => none

def pointToJson (p : Point3) : Json := .arr [.num p.x, .num p.y, .num p.z]

def memberToJson (m : Member) : Json :=
  .obj [("type", .str m.type), ("start", pointToJson m.start), ("end", pointToJson m.endP)]

/-- `RhinoBridgeHandler.handle_generate_truss` under a host where
`RHINO_AVAILABLE = rhino_available`: extract parameters, short-circuit when
Rhino is absent, call `create_truss_geometry`, and answer HTTP 200 with the
success shape when the member list is nonempty and with the fixed failure
shape when it is empty. -/
def handle_generate_truss (rhino_available : Bool) (data : Json) : HttpResponse :=
  match extractTrussParams data with
  | none => send_error_response 500 "Error generating truss: parameter conversion failed"
  | some p =>
      if !rhino_available then
        { status := 200
        , body := .obj [("success", .bool false), ("error", .str "Rhino is not available")
            , ("truss_members", .arr [])] }
      else
        let members := create_truss_geometry p.sp p.ep p.truss_depth p.num_divisions
          p.truss_type p.plane_direction
        if members.isEmpty then
          { status := 200
          , body := .obj [("success", .bool false)
              , ("error", .str "Failed to create truss in Rhino")
              , ("truss_members", .arr [])] }
        else
          { status := 200
          , body := .obj [("success", .bool true)
              , ("truss_members", .arr (members.map memberToJson))
              , ("num_members", .num members.length)
              , ("truss_depth", .num p.truss_depth)
              , ("num_divisions", .num p.num_divisions)
              , ("truss_type", .str p.truss_type)
              , ("message", .str (p.truss_type ++ " truss created successfully with "
                  ++ toString members.length ++ " members"))] }

lemma ctg_nonpos (sp ep : Point3) (depth : ℚ) (d : ℤ) (tt pd : String) (hd : d ≤ 0) :
    create_truss_geometry sp ep depth d tt pd = [] := by
  unfold create_truss_geometry
  by_cases h0 : d = 0
  · rw [if_pos h0]
  · rw [if_neg h0]
    have ht : d.toNat = 0 := by omega
    have ht1 : (d + 1).toNat = 0 := by omega
    have hweb : webMembers sp ep depth d tt = [] := by
      simp only [webMembers]
      split_ifs <;>
        simp [verticalMembers, prattDiagonals, warrenDiagonals, howeDiagonals,
          brownDiagonals, onedirDiagonals, defaultDiagonals, rangeList, ht, ht1]
    simp [topChordMembers, bottomChordMembers, rangeList, ht, hweb]

/-- C10: a `/generate_truss` request with Rhino available and
`num_divisions ≤ 0` (the `ZeroDivisionError` at `divisions = 0` is absorbed
inside `create_truss_geometry`, and negative divisions make every loop
empty) is answered with HTTP 200 and the fixed failure body, not HTTP 500. -/
theorem generate_truss_nonpositive_divisions (data : Json) (p : TrussParams)
    (hx : extractTrussParams data = some p) (hd : p.num_divisions ≤ 0) :
    handle_generate_truss true data =
      { status := 200
      , body := .obj [("success", .bool false)
          , ("error", .str "Failed to create truss in Rhino")
          , ("truss_members", .arr [])] } := by
  have hempty := ctg_nonpos p.sp p.ep p.truss_depth p.num_divisions p.truss_type
    p.plane_direction hd
  simp [handle_generate_truss, hx, hempty]

/-- Witness for C10: the request carrying only `num_divisions = 0`. -/
theorem generate_truss_nonpositive_divisions_witness :
    extractTrussParams (.obj [("num_divisions", .num 0)]) =
      some ⟨⟨0, 0, 0⟩, ⟨10, 0, 0⟩, 2, 0, "Pratt", "perpendicular"⟩ ∧
    ((0 : ℤ) ≤ 0) ∧
    handle_generate_truss true (.obj [("num_divisions", .num 0)]) =
      { status := 200
      , body := .obj [("success", .bool false)
          , ("error", .str "Failed to create truss in Rhino")
          , ("truss_members", .arr [])] } :=
  ⟨by decide, by decide,
   generate_truss_nonpositive_divisions (.obj [("num_divisions", .num 0)])
     ⟨⟨0, 0, 0⟩, ⟨10, 0, 0⟩, 2, 0, "Pratt", "perpendicular"⟩ (by decide) (by decide)⟩

/-- Default bridge host (`RHINO_BRIDGE_HOST` unset). -/
def BRIDGE_HOST : String := "localhost"

/-- Default bridge port (`RHINO_BRIDGE_PORT` unset). -/
def BRIDGE_PORT : ℕ := 8080

/-- `BRIDGE_URL` under the default configuration; the theorems about the
client quantify over an arbitrary configured URL instead of fixing this
one. -/
def BRIDGE_URL : String := "http://" ++ BRIDGE_HOST ++ ":" ++ toString BRIDGE_PORT

/-- The outcome of one HTTP attempt by the `requests` library, as observed
by `call_bridge_api`'s `try` block:
  * `connectionError` — `requests.exceptions.ConnectionError`;
  * `timeout` — `requests.exceptions.Timeout` (the library enforces the
    fixed `timeout=10` bound; wall-clock time is below this abstraction);
  * `requestError msg` — any other `RequestException` raised while issuing
    the request, with `str(e) = msg`;
  * `response status strRepr body` — a completed HTTP response;
    `strRepr` is `str(e)` of the `HTTPError` that `raise_for_status()`
    raises when `status ≥ 400`, and `body` is `Except.ok` the decoded JSON
    or `Except.error` the decode-failure message. -/
inductive NetOutcome where
  | connectionError : NetOutcome
  | timeout : NetOutcome
  | requestError : String → NetOutcome
  | response : ℕ → String → Except String Json → NetOutcome

/-- `call_bridge_api(endpoint, data)` from `MCP/bridge_client.py`, for a
configured base URL `bridgeUrl`.  The network is an outcome stream indexed
by attempt number; the body makes exactly one attempt, consuming `net 0`
(`data = none` is the GET form, `data = some v` the POST form — both flow
into the same result handling).  `raise_for_status()` raises `HTTPError`
(a `RequestException`) for statuses ≥ 400, so a non-2xx error response is
reported as `"Bridge API request failed: " ++ str(e)`, never by decoding
the response body. -/
def call_bridge_api (bridgeUrl : String) (endpoint : String) (data : Option Json)
    (net : ℕ → NetOutcome) : Json :=
  match net 0 with
  | .connectionError =>
      .obj [("success", .bool false)
        , ("error", .str ("Cannot connect to Rhino Bridge Server at " ++ bridgeUrl
            ++ ". Make sure the bridge server is running in Rhino."))]
  | .timeout =>
      .obj [("success", .bool false)
        , ("error", .str "Request to Rhino Bridge Server timed out")]
  | .requestError msg =>
      .obj [("success", .bool false)
        , ("error", .str ("Bridge API request failed: " ++ msg))]
  | .response status strRepr body =>
      if 400 ≤ status then
        .obj [("success", .bool false)
          , ("error", .str ("Bridge API request failed: " ++ strRepr))]
      else
        match body with
        | .ok j => j
        | .error decodeMsg =>
            .obj [("success", .bool false)
              , ("error", .str ("Invalid response from bridge server: " ++ decodeMsg))]

/-- C6: a connection error returns (never raises) a `success = false` object
whose message contains the configured target URL; a timeout returns the
fixed timeout message; and the result depends only on the outcome of the
first attempt — exactly one HTTP attempt is made, with no retry. -/
theorem call_bridge_api_failure_modes (bridgeUrl endpoint : String)
    (data : Option Json) (net : ℕ → NetOutcome) :
    (net 0 = .connectionError →
      call_bridge_api bridgeUrl endpoint data net =
        .obj [("success", .bool false)
          , ("error", .str ("Cannot connect to Rhino Bridge Server at " ++ bridgeUrl
              ++ ". Make sure the bridge server is running in Rhino."))] ∧
      (∃ pre suf : String,
        (call_bridge_api bridgeUrl endpoint data net).getStrField "error"
          = some (pre ++ bridgeUrl ++ suf))) ∧
    (net 0 = .timeout →
      call_bridge_api bridgeUrl endpoint data net =
        .obj [("success", .bool false)
          , ("error", .str "Request to Rhino Bridge Server timed out")]) ∧
    (∀ net' : ℕ → NetOutcome, net 0 = net' 0 →
      call_bridge_api bridgeUrl endpoint data net =
        call_bridge_api bridgeUrl endpoint data net') := by
  refine ⟨?_, ?_, ?_⟩
  · intro h
    unfold call_bridge_api
    rw [h]
    refine ⟨rfl, "Cannot connect to Rhino Bridge Server at ",
      ". Make sure the bridge server is running in Rhino.", rfl⟩
  · intro h
    unfold call_bridge_api
    rw [h]
  · intro net' h
    unfold call_bridge_api
    rw [h]

/-- Witness for C6 under the default configuration and a network refusing
the connection on every attempt. -/
theorem call_bridge_api_failure_modes_witness :
    ((fun _ => NetOutcome.connectionError) 0 = NetOutcome.connectionError →
      call_bridge_api BRIDGE_URL "/status" none (fun _ => .connectionError) =
        .obj [("success", .bool false)
          , ("error", .str ("Cannot connect to Rhino Bridge Server at " ++ BRIDGE_URL
              ++ ". Make sure the bridge server is running in Rhino."))] ∧
      (∃ pre suf : String,
        (call_bridge_api BRIDGE_URL "/status" none (fun _ => .connectionError)).getStrField
          "error" = some (pre ++ BRIDGE_URL ++ suf))) ∧
    ((fun _ => NetOutcome.connectionError) 0 = NetOutcome.timeout →
      call_bridge_api BRIDGE_URL "/status" none (fun _ => .connectionError) =
        .obj [("success", .bool false)
          , ("error", .str "Request to Rhino Bridge Server timed out")]) ∧
    (∀ net' : ℕ → NetOutcome, (fun _ => NetOutcome.connectionError) 0 = net' 0 →
      call_bridge_api BRIDGE_URL "/status" none (fun _ => .connectionError) =
        call_bridge_api BRIDGE_URL "/status" none net') :=
  call_bridge_api_failure_modes BRIDGE_URL "/status" none (fun _ => .connectionError)

/-- A JSON-decodable error body for the C7 scenario. -/
def nonOkBody : Json := .obj [("detail", .str "boom")]

/-- A network returning HTTP 500 with the JSON-decodable body `nonOkBody`;
the `str(e)` of the `HTTPError` raised by `raise_for_status()` for it. -/
def nonOkNet : ℕ → NetOutcome :=
  fun _ => .response 500
    "500 Server Error: Internal Server Error for url: http://localhost:8080/test"
    (.ok nonOkBody)

/-- Counterexample to C7 as stated: on a non-2xx response whose body IS
JSON-decodable, the returned error content is neither that decoded body nor
the synthesized message `"transport failure"` — it is
`"Bridge API request failed: " ++ str(HTTPError)`, computed without reading
the body at all. -/
theorem call_bridge_api_non2xx_cex :
    (call_bridge_api BRIDGE_URL "/test" none nonOkNet).getBoolField "success"
      = some false ∧
    (call_bridge_api BRIDGE_URL "/test" none nonOkNet).getStrField "error"
      = some ("Bridge API request failed: "
          ++ "500 Server Error: Internal Server Error for url: http://localhost:8080/test") ∧
    (call_bridge_api BRIDGE_URL "/test" none nonOkNet).getStrField "error"
      ≠ some "transport failure" ∧
    (call_bridge_api BRIDGE_URL "/test" none nonOkNet).getField "error"
      ≠ some nonOkBody ∧
    (call_bridge_api BRIDGE_URL "/test" none nonOkNet).getField "detail" = none := by
  refine ⟨rfl, by decide, by decide, ?_, rfl⟩
  intro h
  rw [show (call_bridge_api BRIDGE_URL "/test" none nonOkNet).getField "error"
      = some (.str ("Bridge API request failed: "
        ++ "500 Server Error: Internal Server Error for url: http://localhost:8080/test"))
    from rfl] at h
  simp [nonOkBody] at h

/-- C7 amended: on every response with status ≥ 400 (the statuses for which
`raise_for_status()` raises `HTTPError`), the client returns
`success = false` with error message `"Bridge API request failed: " ++
str(e)`; the response body is never decoded into the error content —
replacing the body by any other leaves the result unchanged — and no
`"transport failure"` message exists anywhere in the client. -/
theorem call_bridge_api_non2xx_ignores_body (bridgeUrl endpoint : String)
    (data : Option Json) (net : ℕ → NetOutcome) (status : ℕ) (strRepr : String)
    (body : Except String Json)
    (hnet : net 0 = .response status strRepr body) (hst : 400 ≤ status) :
    call_bridge_api bridgeUrl endpoint data net =
      .obj [("success", .bool false)
        , ("error", .str ("Bridge API request failed: " ++ strRepr))] ∧
    (∀ body' : Except String Json,
      call_bridge_api bridgeUrl endpoint data
          (fun n => if n = 0 then .response status strRepr body' else net n) =
        call_bridge_api bridgeUrl endpoint data net) := by
  constructor
  · unfold call_bridge_api
    rw [hnet]
    dsimp only
    rw [if_pos hst]
  · intro body'
    unfold call_bridge_api
    rw [hnet]
    simp only [if_true]
    rw [if_pos hst, if_pos hst]

/-- Witness for the amended C7 at a concrete 404 response. -/
theorem call_bridge_api_non2xx_ignores_body_witness :
    ((fun _ => NetOutcome.response 404 "404 Client Error" (.error "not json")) 0
      = NetOutcome.response 404 "404 Client Error" (.error "not json")) ∧
    (400 ≤ 404) ∧
    (call_bridge_api BRIDGE_URL "/x" (some (.obj [])) (fun _ => .response 404
        "404 Client Error" (.error "not json")) =
      .obj [("success", .bool false)
        , ("error", .str ("Bridge API request failed: " ++ "404 Client Error"))] ∧
    (∀ body' : Except String Json,
      call_bridge_api BRIDGE_URL "/x" (some (.obj []))
          (fun n => if n = 0 then .response 404 "404 Client Error" body'
            else (fun _ => NetOutcome.response 404 "404 Client Error" (.error "not json")) n) =
        call_bridge_api BRIDGE_URL "/x" (some (.obj []))
          (fun _ => .response 404 "404 Client Error" (.error "not json")))) :=
  ⟨rfl, by decide,
   call_bridge_api_non2xx_ignores_body BRIDGE_URL "/x" (some (.obj []))
     (fun _ => .response 404 "404 Client Error" (.error "not json")) 404
     "404 Client Error" (.error "not json") rfl (by decide)⟩

/-- A registered tool: `ToolDefinition` of `tool_registry.py` restricted to
the fields the claims mention (`description`, a doc string, and `function`,
a Python callable, are dropped). -/
structure ToolDef where
  name : String
  tool_type : String
deriving DecidableEq, Repr

/-- The two module-level tool registries (`_rhino_tools`, `_gh_tools`),
plus the log of warning lines printed by the registration system.  The
`_bridge_handlers` dict is keyed by endpoint and unique by construction. -/
structure RegistryState where
  rhino_tools : List ToolDef
  gh_tools : List ToolDef
  warnings : List String
deriving DecidableEq, Repr

def emptyRegistry : RegistryState := { rhino_tools := [], gh_tools := [], warnings := [] }

/-- The `@rhino_tool(name, ...)` decorator: `_rhino_tools.append(tool_def)`,
unconditionally — there is no duplicate check, no overwrite, and nothing is
printed or logged. -/
def rhino_tool (st : RegistryState) (name : String) : RegistryState :=
  { st with rhino_tools := st.rhino_tools ++ [{ name := name, tool_type := "rhino" }] }

/-- The `@gh_tool(name, ...)` decorator: `_gh_tools.append(tool_def)`,
unconditionally. -/
def gh_tool (st : RegistryState) (name : String) : RegistryState :=
  { st with gh_tools := st.gh_tools ++ [{ name := name, tool_type := "grasshopper" }] }

inductive ToolKind where
  | rhino : ToolKind
  | gh : ToolKind
deriving DecidableEq, Repr

/-- Loading one module either runs its decorator registrations in file
order, or raises at import; `discover_tools` catches the failure per module,
prints a warning and continues with the next module. -/
inductive ModuleLoad where
  | loads : List (ToolKind × String) → ModuleLoad
  | importError : ModuleLoad

def applyReg (st : RegistryState) : ToolKind × String → RegistryState
  | (.rhino, n) => rhino_tool st n
  | (.gh, n) => gh_tool st n

def loadModule (st : RegistryState) (modName : String) (m : ModuleLoad) : RegistryState :=
  match m with
  | .loads regs => regs.foldl applyReg st
  | .importError =>
      { st with warnings := st.warnings ++ ["Warning: Could not import " ++ modName] }

/-- The module files of `Tools/` other than `tool_registry.py`, with the
registrations each performs, transcribed from the sources in file order.
`utility_tools` raises `ImportError` while loading — it imports
`utility_tool` from `tool_registry`, which defines no such name, on both of
its load paths — so none of its registrations happen.  `os.listdir` order is
filesystem-dependent; the uniqueness claim is order-insensitive and the list
is alphabetical here. -/
def toolsModules : List (String × ModuleLoad) :=
  [ ("gh_tools", .loads
      [ (.gh, "list_grasshopper_sliders")
      , (.gh, "set_grasshopper_slider")
      , (.gh, "get_grasshopper_overview")
      , (.gh, "analyze_grasshopper_sliders")
      , (.gh, "get_grasshopper_components")
      , (.gh, "set_multiple_grasshopper_sliders")
      , (.gh, "debug_grasshopper_state")
      , (.gh, "list_grasshopper_valuelist_components")
      , (.gh, "set_grasshopper_valuelist_selection")
      , (.gh, "list_grasshopper_panels")
      , (.gh, "set_grasshopper_panel_text")
      , (.gh, "get_grasshopper_panel_data")
      , (.gh, "analyze_grasshopper_inputs_with_context")
      , (.gh, "analyze_grasshopper_outputs_with_context")
      , (.gh, "set_grasshopper_geometry_input")
      , (.gh, "extract_grasshopper_geometry_output") ])
  , ("rhino_tools", .loads
      [ (.rhino, "draw_line_rhino")
      , (.rhino, "get_rhino_info")
      , (.rhino, "typical_roof_truss_generator") ])
  , ("test_tools", .loads
      [ (.rhino, "test_echo")
      , (.rhino, "test_system_info")
      , (.gh, "test_gh_available")
      , (.rhino, "test_add_numbers") ])
  , ("utility_tools", .importError) ]

/-- `discover_tools()`: clear both registries, then import every tool
module, isolating per-module import failures. -/
def discover_tools : RegistryState :=
  toolsModules.foldl (fun st m => loadModule st m.1 m.2) emptyRegistry

/-- Counterexample to C8 as stated: registering a second tool under the
already-registered name `"test_echo"` is neither rejected nor logged and has
no last-registration-wins semantics — the registry simply holds two entries
with the same name, and the warning log stays empty. -/
theorem duplicate_registration_is_silent_cex :
    ((rhino_tool (rhino_tool emptyRegistry "test_echo") "test_echo").rhino_tools.map
        ToolDef.name = ["test_echo", "test_echo"]) ∧
    (rhino_tool (rhino_tool emptyRegistry "test_echo") "test_echo").warnings = [] := by
  decide

/-- C8 amended: after one `discover_tools()` pass over this repository's
actual tool modules, every tool name occurs at most once in each registry
(the only would-be duplicate, `test_echo` in `utility_tools.py`, never
registers because that module fails to import); however, the decorators
append unconditionally — a duplicate registration keeps both entries and
emits no warning. -/
theorem registry_names_unique_after_discovery :
    ((discover_tools.rhino_tools.map ToolDef.name).Nodup ∧
     (discover_tools.gh_tools.map ToolDef.name).Nodup) ∧
    (∀ (st : RegistryState) (name : String),
      (rhino_tool st name).rhino_tools
          = st.rhino_tools ++ [{ name := name, tool_type := "rhino" }] ∧
      (rhino_tool st name).warnings = st.warnings ∧
      (gh_tool st name).gh_tools
          = st.gh_tools ++ [{ name := name, tool_type := "grasshopper" }] ∧
      (gh_tool st name).warnings = st.warnings) := by
  refine ⟨by decide, ?_⟩
  intro st name
  exact ⟨rfl, rfl, rfl, rfl⟩

/-- A live `GH_NumberSlider` as the handler reads it: nickname, current
value, and bounds.  Non-slider canvas objects are removed by the handler's
`isinstance` filter and are not modelled. -/
structure SliderState where
  nickName : String
  value : ℚ
  minimum : ℚ
  maximum : ℚ
deriving DecidableEq, Repr

/-- Python dict assignment `m[k] = v`: overwrite in place, else append. -/
def dictInsert (m : List (String × SliderState)) (k : String) (v : SliderState) :
    List (String × SliderState) :=
  if m.any (fun p => p.1 == k) then m.map (fun p => if p.1 == k then (k, v) else p)
  else m ++ [(k, v)]

/-- The `slider_components` cache: iterate `gh_doc.Objects`, keying each
slider by `obj.NickName or "Unnamed"` (an empty nickname is falsy). -/
def buildSliderMap (objs : List SliderState) : List (String × SliderState) :=
  objs.foldl
    (fun m o => dictInsert m (if o.nickName = "" then "Unnamed" else o.nickName) o) []

/-- `obj.Slider.Value = System.Decimal.Parse(str(clamped_value))`. -/
def setSliderValue (m : List (String × SliderState)) (k : String) (v : ℚ) :
    List (String × SliderState) :=
  m.map (fun p => if p.1 == k then (k, { p.2 with value := v }) else p)

/-- One iteration of the per-item update loop of
`handle_set_multiple_sliders`; the accumulator carries the mutable slider
map, the `results` list and `success_count`.  The Python per-item messages
wrap the slider name in single quotes, dropped here. -/
def processOneUpdate (acc : List (String × SliderState) × List Json × ℕ)
    (u : String × Json) : List (String × SliderState) × List Json × ℕ :=
  let (m, results, cnt) := acc
  match m.lookup u.1 with
  | some s =>
      match pyFloat u.2 with
      | some v =>
          let old := s.value
          let clamped := max s.minimum (min s.maximum v)
          (setSliderValue m u.1 clamped,
           results ++ [.obj [("slider_name", .str u.1), ("success", .bool true)
             , ("old_value", .num old), ("new_value", .num clamped)
             , ("clamped", .bool (decide (clamped ≠ v)))]],
           cnt + 1)
      | none =>
          (m, results ++ [.obj [("slider_name", .str u.1), ("success", .bool false)
             , ("error", .str "Error setting slider: float conversion failed")]], cnt)
  | none =>
      (m, results ++ [.obj [("slider_name", .str u.1), ("success", .bool false)
         , ("error", .str ("Slider " ++ u.1 ++ " not found"))]], cnt)

/-- `handle_set_multiple_sliders` of `Tools/gh_tools.py`.  Host parameters:
`ghImportOk` — the `clr`/`Grasshopper` imports succeed; `ghPlugin` — the
Grasshopper plugin object is truthy; `doc` — the active document's sliders,
`none` when no active canvas/document exists.  The solver
disable/enable/`NewSolution` calls are host side effects outside the model.
Python messages with quoted names are modelled without the quote marks. -/
def handle_set_multiple_sliders (ghImportOk ghPlugin : Bool)
    (doc : Option (List SliderState)) (data : Json) : Json :=
  if !ghImportOk then
    .obj [("success", .bool false)
      , ("error", .str "Grasshopper not available: No module named clr")]
  else
    match data with
    | .obj _ =>
        let slider_updates := (data.getField "slider_updates").getD (.obj [])
        if slider_updates.isFalsy then
          .obj [("success", .bool false), ("error", .str "No slider updates provided")]
        else if !ghPlugin then
          .obj [("success", .bool false), ("error", .str "Grasshopper plugin not available")]
        else
          match doc with
          | none =>
              .obj [("success", .bool false)
                , ("error", .str "No active Grasshopper document found")]
          | some objs =>
              match slider_updates with
              | .obj kvs =>
                  let folded := kvs.foldl processOneUpdate (buildSliderMap objs, [], 0)
                  .obj [("success", .bool true)
                    , ("results", .arr folded.2.1)
                    , ("total_updates", .num kvs.length)
                    , ("successful_updates", .num folded.2.2)
                    , ("failed_updates", .num ((kvs.length - folded.2.2 : ℕ) : ℚ))
                    , ("summary", .str ("Successfully updated " ++ toString folded.2.2
                        ++ " of " ++ toString kvs.length ++ " sliders"))]
              | _ =>
                  .obj [("success", .bool false)
                    , ("error", .str "Error in batch slider update: updates are not a dict")]
    | _ =>
        .obj [("success", .bool false)
          , ("error", .str "Error in batch slider update: request data is not a dict")]

/-- The C9 scenario: one slider `A` with bounds 0..10 and current value 3;
the batch update maps `A` to `5` and the non-existent `B` to `999`. -/
def c9doc : List SliderState :=
  [{ nickName := "A", value := 3, minimum := 0, maximum := 10 }]

def c9data : Json := .obj [("slider_updates", .obj [("A", .num 5), ("B", .num 999)])]

def c9resp : Json := handle_set_multiple_sliders true true (some c9doc) c9data

/-- Item `i` of the response's `results` array. -/
def Json.resultAt (j : Json) (i : ℕ) : Option Json :=
  match j.getField "results" with
  | some (.arr l) => l[i]?
  | _ => none

/-- Counterexample to C9 as stated: in the claimed scenario the per-item
result for `A` reports the value `5` (the requested value, inside the
bounds, so no clamping occurs), not the claimed clamped value `10`; the
batch-level `success` and `failed_updates` parts of the claim do hold. -/
theorem batch_slider_update_cex :
    (((c9resp.resultAt 0).getD .null).getNumField "new_value" = some 5) ∧
    ¬(((c9resp.resultAt 0).getD .null).getNumField "new_value" = some 10) ∧
    (((c9resp.resultAt 0).getD .null).getBoolField "success" = some true) ∧
    (((c9resp.resultAt 0).getD .null).getBoolField "clamped" = some false) ∧
    (((c9resp.resultAt 1).getD .null).getStrField "error" = some "Slider B not found") ∧
    c9resp.getBoolField "success" = some true ∧
    c9resp.getNumField "failed_updates" = some 1 := by
  refine ⟨rfl, by decide, rfl, rfl, rfl, rfl, rfl⟩

/-- C9 amended: in the scenario `A := 5, B := 999` with slider `A` on bounds
0..10 at current value 3 and no slider `B`, the handler reports `A`
succeeding with the unclamped value `5` and old value `3`, `B` failing with
a not-found error, overall `success = true` and `failed_updates = 1`. -/
theorem batch_slider_update_amended :
    handle_set_multiple_sliders true true (some c9doc) c9data =
      .obj [("success", .bool true)
        , ("results", .arr
            [ .obj [("slider_name", .str "A"), ("success", .bool true)
                , ("old_value", .num 3), ("new_value", .num 5), ("clamped", .bool false)]
            , .obj [("slider_name", .str "B"), ("success", .bool false)
                , ("error", .str "Slider B not found")] ])
        , ("total_updates", .num 2)
        , ("successful_updates", .num 1)
        , ("failed_updates", .num 1)
        , ("summary", .str "Successfully updated 1 of 2 sliders")] := by
  rfl
